import Mathlib

/-!
Verification development for the anti-detection core of the TikTok browser
bot (files `stealth.py` and `captcha_solver.py`).

The Python code is shallowly embedded: Python floats become `ℚ` (every float
literal in the relevant code is exactly representable), Python strings become
`String`, and every fallible page probe (Playwright call, `page.evaluate`,
import, file write) becomes an `Except Err`-valued field of an environment
record.  A `try/except` in the source becomes an explicit `match` on the
`Except` value at the same place; an operation the source leaves unguarded
becomes a monadic bind whose error propagates.
-/

abbrev Err := String

/-- Booleanised list containment: `n` occurs as a contiguous block of `hay`. -/
def listIsInfixOf (n : List Char) : List Char → Bool
  | [] => n.isEmpty
  | c :: cs => n.isPrefixOf (c :: cs) || listIsInfixOf n cs

/-- Python `str.lower()` restricted to the ASCII range that actually occurs
in the strings this code manipulates. -/
def strLower (s : String) : String :=
  String.mk (s.data.map Char.toLower)

/-- Python `needle in hay` substring test. -/
def strContains (needle hay : String) : Bool :=
  listIsInfixOf needle.data hay.data

/-- Python `s[:n]` character slice. -/
def strTake (n : Nat) (s : String) : String :=
  String.mk (s.data.take n)

/-- Python `len(s)` character count. -/
def strLen (s : String) : Nat :=
  s.data.length

-- ──────────────────────────────────────────────
-- Adaptive throttle state  (stealth.py lines 29-69)
-- ──────────────────────────────────────────────

/-- `ThrottleState` dataclass: tracks suspicion signals. -/
structure ThrottleState where
  suspicion_score : ℚ
  captcha_count : Nat
  rate_limit_count : Nat
  last_action_ts : ℚ
deriving Repr, DecidableEq

/-- Class attribute `WARN_THRESHOLD = 3.0`. -/
def WARN_THRESHOLD : ℚ := 3

/-- Class attribute `CRITICAL_THRESHOLD = 6.0`. -/
def CRITICAL_THRESHOLD : ℚ := 6

/-- Class attribute `MAX_SCORE = 10.0`. -/
def MAX_SCORE : ℚ := 10

/-- `ThrottleState()` with default fields (the timestamp is supplied by the
clock). -/
def initThrottle (ts : ℚ) : ThrottleState :=
  { suspicion_score := 0, captcha_count := 0, rate_limit_count := 0,
    last_action_ts := ts }

/-- `bump`: `self.suspicion_score = min(self.suspicion_score + amount, self.MAX_SCORE)`
(the `reason` argument is only logged). -/
def ThrottleState.bump (st : ThrottleState) (amount : ℚ) : ThrottleState :=
  { st with suspicion_score := min (st.suspicion_score + amount) MAX_SCORE }

/-- `decay`: `self.suspicion_score = max(0.0, self.suspicion_score - amount)`. -/
def ThrottleState.decay (st : ThrottleState) (amount : ℚ) : ThrottleState :=
  { st with suspicion_score := max 0 (st.suspicion_score - amount) }

/-- `delay_multiplier` property (stealth.py lines 55-62): `4.0` at or above
the critical threshold, `2.0 + (score - 3.0) * 0.5` at or above the warn
threshold, `1.0 + score * 0.15` below it. -/
def ThrottleState.delay_multiplier (st : ThrottleState) : ℚ :=
  if st.suspicion_score ≥ CRITICAL_THRESHOLD then 4
  else if st.suspicion_score ≥ WARN_THRESHOLD then
    2 + (st.suspicion_score - WARN_THRESHOLD) * (1/2)
  else 1 + st.suspicion_score * (3/20)

/-- `is_critical` property: `self.suspicion_score >= self.CRITICAL_THRESHOLD`. -/
def ThrottleState.is_critical (st : ThrottleState) : Bool :=
  decide (CRITICAL_THRESHOLD ≤ st.suspicion_score)

/-- `record_action`: `self.last_action_ts = time.time()`. -/
def ThrottleState.record_action (st : ThrottleState) (now : ℚ) : ThrottleState :=
  { st with last_action_ts := now }

/-- A single score operation, for stating sequence invariants. -/
inductive SuspOp where
  | bump (amount : ℚ)
  | decay (amount : ℚ)
deriving Repr

/-- The amount carried by a score operation. -/
def SuspOp.amount : SuspOp → ℚ
  | .bump a => a
  | .decay a => a

/-- Apply one score operation. -/
def applySuspOp (st : ThrottleState) : SuspOp → ThrottleState
  | .bump a => st.bump a
  | .decay a => st.decay a

/-- Apply a sequence of score operations, first element first. -/
def applySuspOps (st : ThrottleState) : List SuspOp → ThrottleState
  | [] => st
  | op :: rest => applySuspOps (applySuspOp st op) rest

-- ──────────────────────────────────────────────
-- C1 – C3
-- ──────────────────────────────────────────────

lemma bump_le_max (st : ThrottleState) (a : ℚ) :
    (st.bump a).suspicion_score ≤ MAX_SCORE := by
  simp [ThrottleState.bump]

lemma zero_le_decay (st : ThrottleState) (a : ℚ) :
    0 ≤ (st.decay a).suspicion_score := by
  simp only [ThrottleState.decay]
  exact le_max_left 0 _

lemma applySuspOp_bounds (st : ThrottleState) (op : SuspOp)
    (h0 : 0 ≤ st.suspicion_score) (h1 : st.suspicion_score ≤ MAX_SCORE)
    (ha : 0 ≤ op.amount) :
    0 ≤ (applySuspOp st op).suspicion_score ∧
      (applySuspOp st op).suspicion_score ≤ MAX_SCORE := by
  simp only [MAX_SCORE] at h1 ⊢
  cases op with
  | bump a =>
    refine ⟨?_, bump_le_max st a⟩
    have ha' : (0:ℚ) ≤ a := ha
    simp only [applySuspOp, ThrottleState.bump, le_min_iff, MAX_SCORE]
    constructor <;> linarith
  | decay a =>
    refine ⟨zero_le_decay st a, ?_⟩
    have ha' : (0:ℚ) ≤ a := ha
    simp only [applySuspOp, ThrottleState.decay, max_le_iff, MAX_SCORE]
    constructor <;> linarith

lemma applySuspOps_bounds (ops : List SuspOp) (st : ThrottleState)
    (h0 : 0 ≤ st.suspicion_score) (h1 : st.suspicion_score ≤ MAX_SCORE)
    (ha : ∀ op ∈ ops, 0 ≤ op.amount) :
    0 ≤ (applySuspOps st ops).suspicion_score ∧
      (applySuspOps st ops).suspicion_score ≤ MAX_SCORE := by
  induction ops generalizing st with
  | nil => exact ⟨h0, h1⟩
  | cons op rest ih =>
    have hop := applySuspOp_bounds st op h0 h1 (ha op (List.mem_cons_self op rest))
    exact ih (applySuspOp st op) hop.1 hop.2
      (fun o ho => ha o (List.mem_cons_of_mem op ho))

/-- C1: for every sequence of `bump`/`decay` calls with non-negative amounts,
starting from any state whose score is in `[0, MAX_SCORE]`, the score stays
clamped within `[0, 10]`; moreover `bump` never pushes the score above 10 and
`decay` never takes it below 0, unconditionally. -/
theorem C1_score_clamped :
    (∀ (st : ThrottleState) (a : ℚ),
        (st.bump a).suspicion_score ≤ MAX_SCORE ∧
        0 ≤ (st.decay a).suspicion_score) ∧
    (∀ (ops : List SuspOp) (st : ThrottleState),
        0 ≤ st.suspicion_score → st.suspicion_score ≤ MAX_SCORE →
        (∀ op ∈ ops, 0 ≤ op.amount) →
        0 ≤ (applySuspOps st ops).suspicion_score ∧
          (applySuspOps st ops).suspicion_score ≤ MAX_SCORE) :=
  ⟨fun st a => ⟨bump_le_max st a, zero_le_decay st a⟩,
    fun ops st h0 h1 ha => applySuspOps_bounds ops st h0 h1 ha⟩

/-- Witness for C1 at a concrete operation sequence. -/
theorem C1_score_clamped_witness :
    (0:ℚ) ≤ (initThrottle 0).suspicion_score ∧
    (initThrottle 0).suspicion_score ≤ MAX_SCORE ∧
    (∀ op ∈ [SuspOp.bump (5/2), SuspOp.decay (3/10), SuspOp.bump 9,
             SuspOp.decay (1/5)], 0 ≤ op.amount) ∧
    (0 ≤ (applySuspOps (initThrottle 0)
        [SuspOp.bump (5/2), SuspOp.decay (3/10), SuspOp.bump 9,
         SuspOp.decay (1/5)]).suspicion_score ∧
      (applySuspOps (initThrottle 0)
        [SuspOp.bump (5/2), SuspOp.decay (3/10), SuspOp.bump 9,
         SuspOp.decay (1/5)]).suspicion_score ≤ MAX_SCORE) := by
  have hops : ∀ op ∈ [SuspOp.bump (5/2), SuspOp.decay (3/10), SuspOp.bump 9,
      SuspOp.decay (1/5)], 0 ≤ op.amount := by
    intro op hop
    simp only [List.mem_cons, List.not_mem_nil, or_false] at hop
    rcases hop with h | h | h | h <;> subst h <;> norm_num [SuspOp.amount]
  refine ⟨by norm_num [initThrottle], by norm_num [initThrottle, MAX_SCORE], hops, ?_⟩
  exact C1_score_clamped.2 _ (initThrottle 0)
    (by norm_num [initThrottle]) (by norm_num [initThrottle, MAX_SCORE]) hops

/-- C2: `delay_multiplier` is non-decreasing in the score over `[0, 10]`
(including across the WARN and CRITICAL thresholds), always `≥ 1.0` there,
equals `1.0` at score `0` and `4.0` at score `10`. -/
theorem C2_delay_multiplier :
    (∀ s₁ s₂ : ℚ, 0 ≤ s₁ → s₁ ≤ s₂ → s₂ ≤ MAX_SCORE →
        (ThrottleState.mk s₁ 0 0 0).delay_multiplier ≤
          (ThrottleState.mk s₂ 0 0 0).delay_multiplier) ∧
    (∀ s : ℚ, 0 ≤ s → s ≤ MAX_SCORE →
        1 ≤ (ThrottleState.mk s 0 0 0).delay_multiplier) ∧
    (ThrottleState.mk 0 0 0 0).delay_multiplier = 1 ∧
    (ThrottleState.mk 10 0 0 0).delay_multiplier = 4 := by
  refine ⟨?_, ?_, ?_, ?_⟩
  · intro s₁ s₂ h0 h12 h10
    simp only [ThrottleState.delay_multiplier, WARN_THRESHOLD, CRITICAL_THRESHOLD,
      MAX_SCORE] at *
    split_ifs <;> linarith
  · intro s h0 h10
    simp only [ThrottleState.delay_multiplier, WARN_THRESHOLD, CRITICAL_THRESHOLD,
      MAX_SCORE] at *
    split_ifs <;> linarith
  · norm_num [ThrottleState.delay_multiplier, WARN_THRESHOLD, CRITICAL_THRESHOLD]
  · norm_num [ThrottleState.delay_multiplier, WARN_THRESHOLD, CRITICAL_THRESHOLD]

/-- Witness for C2 at concrete scores spanning both thresholds. -/
theorem C2_delay_multiplier_witness :
    ((0:ℚ) ≤ 2 ∧ (2:ℚ) ≤ 7 ∧ (7:ℚ) ≤ MAX_SCORE ∧
      (ThrottleState.mk 2 0 0 0).delay_multiplier ≤
        (ThrottleState.mk 7 0 0 0).delay_multiplier) ∧
    ((0:ℚ) ≤ 9/2 ∧ (9/2:ℚ) ≤ MAX_SCORE ∧
      1 ≤ (ThrottleState.mk (9/2) 0 0 0).delay_multiplier) := by
  refine ⟨⟨by norm_num, by norm_num, by norm_num [MAX_SCORE], ?_⟩,
    ⟨by norm_num, by norm_num [MAX_SCORE], ?_⟩⟩
  · exact C2_delay_multiplier.1 2 7 (by norm_num) (by norm_num)
      (by norm_num [MAX_SCORE])
  · exact C2_delay_multiplier.2.1 (9/2) (by norm_num) (by norm_num [MAX_SCORE])

/-- Counterexample to C3 as stated: from score `9.0`, `bump(5.0)` clamps at
`10.0` and the following `decay(5.0)` lands at `5.0`, strictly below the
pre-bump score `9.0`. -/
theorem C3_counterexample :
    (((ThrottleState.mk 9 0 0 0).bump 5).decay 5).suspicion_score <
      (ThrottleState.mk 9 0 0 0).suspicion_score := by
  norm_num [ThrottleState.bump, ThrottleState.decay, MAX_SCORE]

/-- C3 (amended): `bump(amount)` followed by `decay(amount)` never leaves the
score below its pre-bump value, provided the bump does not hit the
`MAX_SCORE` clamp (`score + amount ≤ MAX_SCORE`) and the score is
non-negative. -/
theorem C3_bump_decay_amended (st : ThrottleState) (a : ℚ)
    (hclamp : st.suspicion_score + a ≤ MAX_SCORE) :
    st.suspicion_score ≤ ((st.bump a).decay a).suspicion_score := by
  simp only [ThrottleState.bump, ThrottleState.decay, min_eq_left hclamp,
    add_sub_cancel_right]
  exact le_max_right 0 _

/-- Witness for the amended C3 at score `2.0`, amount `3.0`. -/
theorem C3_bump_decay_amended_witness :
    (ThrottleState.mk 2 0 0 0).suspicion_score + 3 ≤ MAX_SCORE ∧
    (ThrottleState.mk 2 0 0 0).suspicion_score ≤
      (((ThrottleState.mk 2 0 0 0).bump 3).decay 3).suspicion_score := by
  refine ⟨by norm_num [MAX_SCORE], ?_⟩
  exact C3_bump_decay_amended (ThrottleState.mk 2 0 0 0) 3
    (by norm_num [MAX_SCORE])

-- ──────────────────────────────────────────────
-- Challenge detection  (stealth.py lines 452-667)
-- ──────────────────────────────────────────────

/-- `CAPTCHA_INDICATORS` (stealth.py lines 452-469). -/
def CAPTCHA_INDICATORS : List String := [
  "verify you are human",
  "verify your identity",
  "security verification",
  "slide to verify",
  "drag the slider",
  "fit the puzzle",
  "fix the puzzle",
  "captcha",
  "unusual activity",
  "too many requests",
  "try again later",
  "temporarily unavailable",
  "access denied",
  "rate limit",
  "select 2 objects",
  "select the image"]

/-- `CAPTCHA_SELECTORS` (stealth.py lines 471-492). -/
def CAPTCHA_SELECTORS : List String := [
  "[data-e2e=\"captcha-verify-container\"]",
  "[ID=\"captcha_container\"]",
  "iframe[src*=\"captcha\"]",
  "[class*=\"tiktok-verify\"]",
  "[class*=\"secsdk-captcha\"]",
  "[class*=\"secsdk\"]",
  "div[role=\"dialog\"][class*=\"Verify\"]",
  "[class*=\"Verify\"] [class*=\"modal\"]",
  "button[class*=\"captcha\"]",
  "button[class*=\"secsdk\"]",
  "[class*=\"puzzle\"]",
  "[class*=\"drag-icon\"]",
  "#captcha_slide_button",
  "button#captcha_slide_button",
  "[class*=\"secsdk-captcha-drag-icon\"]",
  "button[class*=\"secsdk-captcha\"]"]

/-- `LEGITIMATE_DIALOG_SELECTORS` (stealth.py lines 495-500). -/
def LEGITIMATE_DIALOG_SELECTORS : List String := [
  "[data-e2e=\"login-button\"]",
  "[data-e2e=\"signup-button\"]",
  "button:has-text(\"Log in\")",
  "button:has-text(\"Sign up\")"]

/-- `captcha_keywords` checked against dialog text/markup (stealth.py line 615). -/
def DIALOG_CAPTCHA_KEYWORDS : List String :=
  ["slider", "puzzle", "drag", "verify", "captcha", "fit", "rotate"]

/-- Scoped text containers probed last (stealth.py line 651). -/
def TEXT_CONTAINERS : List String :=
  ["[data-e2e=\"error-page\"]", "div[role=\"dialog\"]", "body"]

/-- Environment of page probes consumed by `detect_challenge`.  Each field is
the outcome of one external page call; `.error` models that call raising.
`containerExists` is total because `bot_utils.element_exists` swallows every
exception itself. -/
structure DEnv where
  url : Except Err String
  shadowFound : Except Err (Option String)
  dialogVisible : Except Err Bool
  legitVisible : String → Except Err Bool
  dialogText : Except Err String
  dialogHtml : Except Err String
  selVisible : String → Except Err Bool
  containerExists : String → Bool
  containerText : String → Except Err String

/-- `_detect_captcha_in_shadow_dom` (stealth.py lines 503-565): the JS
traversal result arrives from `page.evaluate`; any error is caught and
logged, yielding no signal. -/
def detect_captcha_in_shadow_dom (env : DEnv) : Option String :=
  match env.shadowFound with
  | .ok (some sel) => some ("shadow_dom:" ++ sel)
  | _ => none

/-- Dialog whitelist loop (stealth.py lines 596-602): first visible
legitimate-dialog selector marks the dialog legitimate; probe errors mean
"continue". -/
def legitimateDialogCheck (env : DEnv) : Bool :=
  LEGITIMATE_DIALOG_SELECTORS.any fun sel =>
    match env.legitVisible sel with
    | .ok b => b
    | .error _ => false

/-- Keyword scan over dialog text and truncated markup plus the
profile-page heuristic (stealth.py lines 615-626). -/
def dialogKeywordCheck (dialogTextLower dialogHtmlLower url : String) :
    Option String :=
  match DIALOG_CAPTCHA_KEYWORDS.find? (fun kw =>
      strContains kw dialogTextLower || strContains kw dialogHtmlLower) with
  | some kw => some ("dialog_captcha:" ++ kw)
  | none =>
    if strContains "/@" url && !strContains "search" url then
      some "unexpected_dialog_on_profile"
    else none

/-- Dialog check (stealth.py lines 590-630).  The outer `try` swallows any
probe error into "no signal"; the inner `try` around text/markup extraction
does the same.  The markup is truncated to 500 characters before the
lower-case keyword scan, exactly as `dialog.evaluate(...)[:500]`. -/
def dialogSection (env : DEnv) (url : String) : Option String :=
  match env.dialogVisible with
  | .error _ => none
  | .ok false => none
  | .ok true =>
    if legitimateDialogCheck env then none
    else
      match env.dialogText with
      | .error _ => none
      | .ok dt =>
        match env.dialogHtml with
        | .error _ => none
        | .ok dh =>
          dialogKeywordCheck (strLower dt) (strLower (strTake 500 dh)) url

/-- DOM-element check (stealth.py lines 633-645): first visible CAPTCHA
selector wins; probe errors mean "continue". -/
def captchaSelectorSection (env : DEnv) : Option String :=
  (CAPTCHA_SELECTORS.find? fun sel =>
    match env.selVisible sel with
    | .ok b => b
    | .error _ => false).map (fun sel => "captcha_element:" ++ sel)

/-- Scoped-container text scan (stealth.py lines 649-662): a match only
counts when the container's whole text is shorter than 500 characters.  An
`inner_text` failure aborts the remaining containers because the `try` wraps
the whole loop. -/
def textScanLoop (env : DEnv) : List String → Except Err (Option String)
  | [] => .ok none
  | c :: rest =>
    if env.containerExists c then
      match env.containerText c with
      | .error e => .error e
      | .ok t0 =>
        match CAPTCHA_INDICATORS.find? (fun ind =>
            strContains ind (strLower t0) &&
              decide (strLen (strLower t0) < 500)) with
        | some ind => .ok (some ("text_match:" ++ ind))
        | none => textScanLoop env rest
    else textScanLoop env rest

/-- Text check with its enclosing `try` (stealth.py lines 649-662). -/
def textSection (env : DEnv) : Option String :=
  match textScanLoop env TEXT_CONTAINERS with
  | .ok r => r
  | .error _ => none

/-- Body of `detect_challenge` inside its outermost `try` (stealth.py lines
575-662).  The only unguarded fallible operation is the `page.url` read;
checks run in the fixed order URL, shadow DOM, dialog (skipped for the
upload phase), DOM elements, scoped text. -/
def detectAux (env : DEnv) (phase : Option String) :
    Except Err (Option String) :=
  match env.url with
  | .error e => .error e
  | .ok url0 =>
    if strContains "captcha" (strLower url0) ||
        strContains "challenge" (strLower url0) then
      .ok (some ("challenge_url:" ++ strLower url0))
    else
      match detect_captcha_in_shadow_dom env with
      | some s => .ok (some s)
      | none =>
        match (if phase ≠ some "upload" then dialogSection env (strLower url0)
               else none) with
        | some s => .ok (some s)
        | none =>
          match captchaSelectorSection env with
          | some s => .ok (some s)
          | none => .ok (textSection env)

/-- `detect_challenge(page, phase)` (stealth.py lines 568-667): returns a
challenge descriptor or `none`; the outermost `except` turns any escaped
error into `none`. -/
def detect_challenge (env : DEnv) (phase : Option String) : Option String :=
  match detectAux env phase with
  | .ok r => r
  | .error _ => none

-- ──────────────────────────────────────────────
-- C7 and C6
-- ──────────────────────────────────────────────

/-- C7: when reading the URL succeeds and the lowercased URL contains
"captcha" or "challenge", `detect_challenge` reports the URL signal no
matter what every other probe would say: the URL check runs first and
short-circuits the rest. -/
theorem C7_url_signal_first (env : DEnv) (phase : Option String) (u : String)
    (hurl : env.url = Except.ok u)
    (hkw : (strContains "captcha" (strLower u) ||
            strContains "challenge" (strLower u)) = true) :
    detect_challenge env phase = some ("challenge_url:" ++ strLower u) := by
  simp only [detect_challenge, detectAux, hurl]
  rw [if_pos (by simpa using hkw)]

/-- A probe environment whose every DOM/text probe fails or reports nothing,
with the given URL: exercises URL-priority detection. -/
def denvUrlOnly (u : String) : DEnv :=
  { url := .ok u
    shadowFound := .error "evaluate failed"
    dialogVisible := .error "timeout"
    legitVisible := fun _ => .error "timeout"
    dialogText := .error "timeout"
    dialogHtml := .error "timeout"
    selVisible := fun _ => .error "timeout"
    containerExists := fun _ => false
    containerText := fun _ => .error "timeout" }

/-- Witness for C7: a mixed-case "CAPTCHA" URL is detected even though every
other probe errors out. -/
theorem C7_url_signal_first_witness :
    detect_challenge (denvUrlOnly "https://www.tiktok.com/CAPTCHA/verify") none =
      some ("challenge_url:" ++ strLower "https://www.tiktok.com/CAPTCHA/verify") :=
  C7_url_signal_first (denvUrlOnly "https://www.tiktok.com/CAPTCHA/verify") none
    "https://www.tiktok.com/CAPTCHA/verify" rfl (by decide)

/-- A probe environment where the URL is a plain feed URL, the shadow-DOM
scan finds nothing, no dialog is visible, no CAPTCHA selector matches, and
only the `body` container exists, carrying the given text. -/
def denvBodyText (t : String) : DEnv :=
  { url := .ok "https://www.tiktok.com/foryou"
    shadowFound := .ok none
    dialogVisible := .ok false
    legitVisible := fun _ => .ok false
    dialogText := .error "no dialog"
    dialogHtml := .error "no dialog"
    selVisible := fun _ => .ok false
    containerExists := fun c => c == "body"
    containerText := fun _ => .ok t }

lemma detect_denvBodyText (t : String) :
    detect_challenge (denvBodyText t) none =
      (CAPTCHA_INDICATORS.find? (fun ind =>
          strContains ind (strLower t) &&
            decide (strLen (strLower t) < 500))).map
        (fun ind => "text_match:" ++ ind) := by
  have hurl : (denvBodyText t).url = .ok "https://www.tiktok.com/foryou" := rfl
  have hurlf : (strContains "captcha" (strLower "https://www.tiktok.com/foryou") ||
      strContains "challenge" (strLower "https://www.tiktok.com/foryou")) = false := by
    decide
  have hsh : detect_captcha_in_shadow_dom (denvBodyText t) = none := rfl
  have hdl : dialogSection (denvBodyText t)
      (strLower "https://www.tiktok.com/foryou") = none := rfl
  have hcs : captchaSelectorSection (denvBodyText t) = none := rfl
  have he1 : (denvBodyText t).containerExists "[data-e2e=\"error-page\"]" = false := rfl
  have he2 : (denvBodyText t).containerExists "div[role=\"dialog\"]" = false := rfl
  have he3 : (denvBodyText t).containerExists "body" = true := rfl
  have hct : (denvBodyText t).containerText "body" = .ok t := rfl
  have hloop : textScanLoop (denvBodyText t) TEXT_CONTAINERS =
      match CAPTCHA_INDICATORS.find? (fun ind =>
          strContains ind (strLower t) && decide (strLen (strLower t) < 500)) with
      | some ind => .ok (some ("text_match:" ++ ind))
      | none => .ok none := by
    simp only [textScanLoop, TEXT_CONTAINERS, he1, he2, he3, hct,
      Bool.false_eq_true, if_false, if_true]
  simp only [detect_challenge, detectAux, hurl, hurlf, Bool.false_eq_true,
    if_false, hsh, hdl, hcs, textSection, hloop]
  cases CAPTCHA_INDICATORS.find? (fun ind =>
      strContains ind (strLower t) && decide (strLen (strLower t) < 500)) <;> rfl

/-- A 100-character body text starting with the rate-limit phrase. -/
def body100 : String := "rate limit" ++ String.mk (List.replicate 90 'a')

/-- A 600-character body text starting with the rate-limit phrase. -/
def body600 : String := "rate limit" ++ String.mk (List.replicate 590 'a')

set_option maxRecDepth 20000 in
/-- C6: with the URL, shadow-DOM, dialog and DOM-element checks all silent,
an indicator phrase in a scoped container is flagged exactly when the
container's total text is shorter than 500 characters; concretely the
rate-limit phrase in a 600-character body is not flagged while the same
phrase in a 100-character body is flagged. -/
theorem C6_text_threshold :
    (∀ t : String, strContains "rate limit" (strLower t) = true →
      ((detect_challenge (denvBodyText t) none).isSome ↔
        strLen (strLower t) < 500)) ∧
    detect_challenge (denvBodyText body600) none = none ∧
    detect_challenge (denvBodyText body100) none =
      some "text_match:rate limit" := by
  have hgen : ∀ t : String, strContains "rate limit" (strLower t) = true →
      ((detect_challenge (denvBodyText t) none).isSome ↔
        strLen (strLower t) < 500) := by
    intro t ht
    rw [detect_denvBodyText t]
    rw [show ∀ (o : Option String) (f : String → String),
        (o.map f).isSome = o.isSome from fun o f => by cases o <;> rfl]
    rw [List.find?_isSome]
    constructor
    · rintro ⟨ind, hmem, hp⟩
      simp only [Bool.and_eq_true, decide_eq_true_eq] at hp
      exact hp.2
    · intro hlen
      refine ⟨"rate limit", by decide, ?_⟩
      simp [ht, hlen]
  refine ⟨hgen, ?_, ?_⟩
  · have h6 : strContains "rate limit" (strLower body600) = true := by decide
    have hlen : strLen (strLower body600) = 600 := by decide
    have := (hgen body600 h6).not.mpr (by rw [hlen]; omega)
    simpa [Option.not_isSome_iff_eq_none] using this
  · rw [detect_denvBodyText body100]
    decide

set_option maxRecDepth 20000 in
/-- Witness for C6 applied at the concrete 100-character body text. -/
theorem C6_text_threshold_witness :
    strContains "rate limit" (strLower body100) = true ∧
    ((detect_challenge (denvBodyText body100) none).isSome ↔
      strLen (strLower body100) < 500) :=
  ⟨by decide, C6_text_threshold.1 body100 (by decide)⟩

-- ──────────────────────────────────────────────
-- CAPTCHA solvers  (captcha_solver.py)
-- ──────────────────────────────────────────────

/-- A bounding box as returned by the page layer. -/
structure Box where
  x : ℚ
  y : ℚ
  width : ℚ
  height : ℚ

/-- Python `x % 1.0` used to wrap adjusted rotation fractions. -/
def qmod1 (x : ℚ) : ℚ := x - ⌊x⌋

/-- Environment of one solver run: `slider0` is the initial
`_find_slider_track` result (that helper swallows all its probe errors, so
it is total), `estimate` the optional image-analysis seed, `drag i f` the
outcome of the i-th `_human_drag_slider` call at fraction `f` (an error
models the unguarded drag raising), `detectEnvAt i` the page state seen by
the `detect_challenge` call after drag `i`, and `refindAt i` the re-acquired
slider box. -/
structure SolverEnv where
  slider0 : Option Box
  estimate : Option ℚ
  drag : Nat → ℚ → Except Err Unit
  detectEnvAt : Nat → DEnv
  refindAt : Nat → Option Box

/-- Shared drag/verify loop (captcha_solver.py lines 301-322 and 424-440):
drag, re-check via `detect_challenge`, abort with failure when the slider
disappears, otherwise continue with the next fraction.  The returned `Nat`
counts drag operations performed; a `.error` result models an exception
escaping the solver (the loop body has no `try` of its own). -/
def attemptLoop (env : SolverEnv) : List ℚ → Nat → (Except Err Bool) × Nat
  | [], i => (.ok false, i)
  | f :: rest, i =>
    match env.drag i f with
    | .error e => (.error e, i + 1)
    | .ok _ =>
      match detect_challenge (env.detectEnvAt i) none with
      | none => (.ok true, i + 1)
      | some _ =>
        match env.refindAt i with
        | none => (.ok false, i + 1)
        | some _ => attemptLoop env rest (i + 1)

/-- Rotation attempt list (captcha_solver.py lines 289-299), before the
`[:6]` cap: the estimate, then estimate ±0.05, ±0.10, ±0.15 wrapped mod 1,
or the fixed sweep `0.0, 0.25, 0.5, 0.75, 0.12, 0.37, 0.62, 0.87`. -/
def rotationAttempts (estimate : Option ℚ) : List ℚ :=
  match estimate with
  | some e => [e, qmod1 (e + 1/20), qmod1 (e - 1/20), qmod1 (e + 1/10),
      qmod1 (e - 1/10), qmod1 (e + 3/20), qmod1 (e - 3/20)]
  | none => [0, 1/4, 1/2, 3/4, 3/25, 37/100, 31/50, 87/100]

/-- Jigsaw attempt list (captcha_solver.py lines 414-422), before the `[:5]`
cap: the estimate, then estimate ±0.03, ±0.06, ±0.10 clamped into
`[0.05, 0.95]`, or the fixed list `0.45, 0.55, 0.65, 0.35, 0.75, 0.50`. -/
def jigsawAttempts (estimate : Option ℚ) : List ℚ :=
  match estimate with
  | some e => [e,
      max (1/20) (min (19/20) (e + 3/100)),
      max (1/20) (min (19/20) (e - 3/100)),
      max (1/20) (min (19/20) (e + 3/50)),
      max (1/20) (min (19/20) (e - 3/50)),
      max (1/20) (min (19/20) (e + 1/10)),
      max (1/20) (min (19/20) (e - 1/10))]
  | none => [9/20, 11/20, 13/20, 7/20, 3/4, 1/2]

/-- `solve_rotation_captcha(page, debug_dir)` (captcha_solver.py lines
244-325): fails fast when no slider track is found, then runs at most the
first 6 attempts. -/
def solve_rotation_captcha (env : SolverEnv) : (Except Err Bool) × Nat :=
  match env.slider0 with
  | none => (.ok false, 0)
  | some _ => attemptLoop env ((rotationAttempts env.estimate).take 6) 0

/-- `solve_jigsaw_captcha(page, debug_dir)` (captcha_solver.py lines
376-443): fails fast when no slider track is found, then runs at most the
first 5 attempts. -/
def solve_jigsaw_captcha (env : SolverEnv) : (Except Err Bool) × Nat :=
  match env.slider0 with
  | none => (.ok false, 0)
  | some _ => attemptLoop env ((jigsawAttempts env.estimate).take 5) 0

/-- Environment of `attempt_solve_captcha`: the body-text probe and one
solver environment per solver invocation. -/
structure AEnv where
  bodyText : Except Err String
  rot : SolverEnv
  jig : SolverEnv

/-- Classification text `page.inner_text("body").lower()`, empty when the
probe raises (captcha_solver.py lines 456-461). -/
def pageText (env : AEnv) : String :=
  match env.bodyText with
  | .ok t => strLower t
  | .error _ => ""

/-- `attempt_solve_captcha(page, debug_dir)` (captcha_solver.py lines
450-476) together with the total number of drag operations performed.  The
outer `try` maps a solver exception to `False`; in the unknown-type branch
the rotation solver runs first and the jigsaw solver only when it returned
`False`. -/
def attempt_solve_captcha (env : AEnv) : Bool × Nat :=
  if strContains "fit the puzzle" (pageText env) ||
      strContains "rotate" (pageText env) then
    match solve_rotation_captcha env.rot with
    | (.ok b, n) => (b, n)
    | (.error _, n) => (false, n)
  else if strContains "drag the puzzle piece" (pageText env) ||
      strContains "slide" (pageText env) then
    match solve_jigsaw_captcha env.jig with
    | (.ok b, n) => (b, n)
    | (.error _, n) => (false, n)
  else
    match solve_rotation_captcha env.rot with
    | (.ok true, n) => (true, n)
    | (.ok false, n) =>
      match solve_jigsaw_captcha env.jig with
      | (.ok b, m) => (b, n + m)
      | (.error _, m) => (false, n + m)
    | (.error _, n) => (false, n)

-- ──────────────────────────────────────────────
-- C5 and C10
-- ──────────────────────────────────────────────

lemma attemptLoop_count (env : SolverEnv) :
    ∀ (l : List ℚ) (i : Nat), (attemptLoop env l i).2 ≤ i + l.length := by
  intro l
  induction l with
  | nil => intro i; simp [attemptLoop]
  | cons f rest ih =>
    intro i
    simp only [attemptLoop, List.length_cons]
    cases env.drag i f with
    | error e => simp
    | ok u =>
      cases detect_challenge (env.detectEnvAt i) none with
      | none => simp
      | some s =>
        cases env.refindAt i with
        | none => simp
        | some b =>
          have := ih (i + 1)
          show (attemptLoop env rest (i + 1)).2 ≤ i + (rest.length + 1)
          omega

lemma solve_rotation_count_le (env : SolverEnv) :
    (solve_rotation_captcha env).2 ≤ 6 := by
  rcases hs : env.slider0 with _ | b <;> simp only [solve_rotation_captcha, hs]
  · simp
  · have h := attemptLoop_count env ((rotationAttempts env.estimate).take 6) 0
    have hlen : ((rotationAttempts env.estimate).take 6).length ≤ 6 := by
      simp [List.length_take]
    omega

lemma solve_jigsaw_count_le (env : SolverEnv) :
    (solve_jigsaw_captcha env).2 ≤ 5 := by
  rcases hs : env.slider0 with _ | b <;> simp only [solve_jigsaw_captcha, hs]
  · simp
  · have h := attemptLoop_count env ((jigsawAttempts env.estimate).take 5) 0
    have hlen : ((jigsawAttempts env.estimate).take 5).length ≤ 5 := by
      simp [List.length_take]
    omega

/-- C5: a single `solve_rotation_captcha` run performs at most 6 drag
operations and a single `solve_jigsaw_captcha` run at most 5, with or
without an image-analysis estimate. -/
theorem C5_attempt_caps :
    (∀ env : SolverEnv, (solve_rotation_captcha env).2 ≤ 6) ∧
    (∀ env : SolverEnv, (solve_jigsaw_captcha env).2 ≤ 5) :=
  ⟨solve_rotation_count_le, solve_jigsaw_count_le⟩

/-- A plausible slider-track bounding box. -/
def box0 : Box := { x := 0, y := 0, width := 300, height := 40 }

/-- A solver environment whose every drag succeeds but the challenge never
clears: the post-drag page state always carries a "captcha" URL, and the
slider track is always re-found, so the solver exhausts its attempt list. -/
def solverEnvExhaust : SolverEnv :=
  { slider0 := some box0
    estimate := none
    drag := fun _ _ => .ok ()
    detectEnvAt := fun _ => denvUrlOnly "captcha"
    refindAt := fun _ => some box0 }

/-- An `attempt_solve_captcha` environment with empty body text (no type
keyword matches) in which both solvers run to exhaustion. -/
def aenvUnknownExhaust : AEnv :=
  { bodyText := .ok ""
    rot := solverEnvExhaust
    jig := solverEnvExhaust }

/-- Discriminator for "the solver returned `False` without raising". -/
def isOkFalse : Except Err Bool → Bool
  | .ok false => true
  | _ => false

/-- C10: when the page text matches neither the rotation nor the jigsaw
keywords, `attempt_solve_captcha` runs the rotation solver first and the
jigsaw solver exactly when rotation returned `False`; the combined drag
count is the sum of the two and is bounded by 11, not by the per-type cap
of 6 — and 11 drags are actually reachable. -/
theorem C10_unknown_type_runs_both :
    (∀ env : AEnv,
      strContains "fit the puzzle" (pageText env) = false →
      strContains "rotate" (pageText env) = false →
      strContains "drag the puzzle piece" (pageText env) = false →
      strContains "slide" (pageText env) = false →
      (attempt_solve_captcha env).2 =
        (solve_rotation_captcha env.rot).2 +
          (if isOkFalse (solve_rotation_captcha env.rot).1
           then (solve_jigsaw_captcha env.jig).2 else 0) ∧
      (attempt_solve_captcha env).2 ≤ 11) ∧
    ((attempt_solve_captcha aenvUnknownExhaust).1 = false ∧
      (attempt_solve_captcha aenvUnknownExhaust).2 = 11) := by
  constructor
  · intro env h1 h2 h3 h4
    have hrot := solve_rotation_count_le env.rot
    have hjig := solve_jigsaw_count_le env.jig
    simp only [attempt_solve_captcha, h1, h2, h3, h4, Bool.or_self,
      Bool.false_eq_true, if_false]
    rcases hr : solve_rotation_captcha env.rot with ⟨r, n⟩
    rw [hr] at hrot
    cases r with
    | error e => simp [isOkFalse]; omega
    | ok b =>
      cases b with
      | true => simp [isOkFalse]; omega
      | false =>
        rcases hj : solve_jigsaw_captcha env.jig with ⟨j, m⟩
        rw [hj] at hjig
        cases j with
        | error e => simp [isOkFalse]; omega
        | ok b2 => simp [isOkFalse]; omega
  · constructor <;> rfl

/-- Witness for C10 applied at the exhausting environment with empty body
text. -/
theorem C10_unknown_type_runs_both_witness :
    strContains "fit the puzzle" (pageText aenvUnknownExhaust) = false ∧
    strContains "rotate" (pageText aenvUnknownExhaust) = false ∧
    strContains "drag the puzzle piece" (pageText aenvUnknownExhaust) = false ∧
    strContains "slide" (pageText aenvUnknownExhaust) = false ∧
    ((attempt_solve_captcha aenvUnknownExhaust).2 =
        (solve_rotation_captcha aenvUnknownExhaust.rot).2 +
          (if isOkFalse (solve_rotation_captcha aenvUnknownExhaust.rot).1
           then (solve_jigsaw_captcha aenvUnknownExhaust.jig).2 else 0) ∧
      (attempt_solve_captcha aenvUnknownExhaust).2 ≤ 11) :=
  ⟨rfl, rfl, rfl, rfl,
    C10_unknown_type_runs_both.1 aenvUnknownExhaust rfl rfl rfl rfl⟩

-- ──────────────────────────────────────────────
-- Challenge handler  (stealth.py lines 670-830)
-- ──────────────────────────────────────────────

/-- `close_selectors` of `_try_dismiss_captcha` (stealth.py lines 790-808). -/
def CLOSE_SELECTORS : List String := [
  "div[role=\"dialog\"] button[aria-label=\"Close\"]",
  "div[role=\"dialog\"] button[aria-label=\"close\"]",
  "[class*=\"secsdk\"] button[aria-label=\"Close\"]",
  "[class*=\"Verify\"] button[aria-label=\"Close\"]",
  "[class*=\"captcha\"] button[aria-label=\"Close\"]",
  "[class*=\"DivCloseWrapper\"]",
  "[class*=\"captcha\"] button[class*=\"close\"]",
  "[class*=\"captcha\"] [class*=\"Close\"]",
  "[class*=\"Verify\"] button[class*=\"close\"]",
  "[class*=\"secsdk\"] [class*=\"close\"]",
  "[class*=\"captcha-modal\"] button",
  "div[class*=\"captcha\"] ~ button",
  "div[class*=\"captcha\"] svg[class*=\"close\"]",
  "button[aria-label=\"Close\"]",
  "button[aria-label=\"close\"]"]

/-- Probe environment of `_try_dismiss_captcha`: visibility and click
outcome per close selector, and the Escape-key fallback outcome. -/
structure DismissEnv where
  closeVisible : String → Except Err Bool
  closeClick : String → Except Err Unit
  escape : Except Err Unit

/-- Selector loop of `_try_dismiss_captcha` (stealth.py lines 810-828): the
first visible close control that clicks successfully wins; any probe error
moves on to the next selector; when the list is exhausted the Escape key is
pressed, itself succeeding unless the key press raises. -/
def dismissLoop (env : DismissEnv) : List String → Bool
  | [] =>
    match env.escape with
    | .ok _ => true
    | .error _ => false
  | sel :: rest =>
    match env.closeVisible sel with
    | .ok true =>
      match env.closeClick sel with
      | .ok _ => true
      | .error _ => dismissLoop env rest
    | _ => dismissLoop env rest

/-- `_try_dismiss_captcha(page)` (stealth.py lines 785-830). -/
def try_dismiss_captcha (env : DismissEnv) : Bool :=
  dismissLoop env CLOSE_SELECTORS

/-- Environment of one `handle_challenge` run.  `diag` is the diagnostic
page-state block (logged only), `detectEnv` the page state for the initial
detection, `configDebugFlag` the `DEBUG_CAPTCHA_CAPTURE` config import,
`captureOps` the screenshot/HTML dump, `solveImports` the solver-module
imports, `solveEnv` the state seen by `attempt_solve_captcha`, `dismissEnv`
the state seen by `_try_dismiss_captcha`, `redetectEnv` the page state at
the post-dismiss re-check, `critPause`/`stdPause` the two
`random.uniform` backoff draws, and `gotoRes` the homepage navigation. -/
structure HEnv where
  diag : Except Err Unit
  detectEnv : DEnv
  configDebugFlag : Except Err Bool
  captureOps : Except Err Unit
  solveImports : Except Err Unit
  solveEnv : AEnv
  dismissEnv : DismissEnv
  redetectEnv : DEnv
  critPause : ℚ
  stdPause : ℚ
  gotoRes : Except Err Unit

/-- Observable outcome of `handle_challenge`: the returned boolean, the
final throttle state, and the backoff sleep duration when the backoff
branch ran (`none` otherwise). -/
structure HResult where
  found : Bool
  st : ThrottleState
  pause : Option ℚ
deriving Repr

/-- Solve step of `handle_challenge` (stealth.py lines 734-744): the `try`
around the imports and the solver call maps any error to "not solved". -/
def solveStep (env : HEnv) : Bool :=
  match env.solveImports with
  | .ok _ => (attempt_solve_captcha env.solveEnv).1
  | .error _ => false

/-- Suspicion update on a detected challenge (stealth.py lines 728-731):
bump by 2.5, then increment the captcha counter exactly when the signal
descriptor contains "captcha". -/
def bumpForChallenge (st : ThrottleState) (challenge : String) : ThrottleState :=
  let st1 := st.bump (5/2)
  if strContains "captcha" (strLower challenge) then
    { st1 with captcha_count := st1.captcha_count + 1 }
  else st1

/-- `handle_challenge(page, phase, capture_debug)` (stealth.py lines
670-782).  The diagnostic block and the debug capture only log/write files
and swallow their own errors; no operation outside a `try` can raise, so
the result is structurally `.ok`.  The backoff pause is
`random.uniform(180, 360)` when the throttle is critical at backoff time
and `random.uniform(60, 180)` otherwise. -/
def handle_challenge (env : HEnv) (phase : Option String)
    (capture_debug : Option Bool) (st : ThrottleState) : Except Err HResult :=
  let _diag : Unit := match env.diag with
    | .ok u => u
    | .error _ => ()
  match detect_challenge env.detectEnv phase with
  | none => .ok { found := false, st := st.decay (1/5), pause := none }
  | some challenge =>
    let cap : Bool :=
      match capture_debug with
      | some b => b
      | none =>
        match env.configDebugFlag with
        | .ok b => b
        | .error _ => false
    let _capture : Unit :=
      if cap then
        match env.captureOps with
        | .ok u => u
        | .error _ => ()
      else ()
    let st2 := bumpForChallenge st challenge
    if solveStep env then
      .ok { found := true, st := st2.decay (3/2), pause := none }
    else
      let backoff : HResult :=
        { found := true, st := st2,
          pause := some (if st2.is_critical then env.critPause else env.stdPause) }
      let _nav : Unit := match env.gotoRes with
        | .ok u => u
        | .error _ => ()
      if try_dismiss_captcha env.dismissEnv then
        if detect_challenge env.redetectEnv none = none then
          .ok { found := true, st := st2.decay 1, pause := none }
        else .ok backoff
      else .ok backoff

-- ──────────────────────────────────────────────
-- C4
-- ──────────────────────────────────────────────

/-- C4: `handle_challenge` never propagates an error to its caller — for
every environment (including ones where detection, solving, dismissal and
debug capture all fail internally) it returns an `.ok` result; it returns
`False` exactly when `detect_challenge` reports no challenge, in which case
the suspicion state was decayed by 0.2, and it returns `True` whenever a
challenge was detected. -/
theorem C4_handle_challenge_no_raise (env : HEnv) (phase : Option String)
    (cap : Option Bool) (st : ThrottleState) :
    ∃ r : HResult, handle_challenge env phase cap st = .ok r ∧
      (r.found = false ↔ detect_challenge env.detectEnv phase = none) ∧
      (detect_challenge env.detectEnv phase = none → r.st = st.decay (1/5)) := by
  cases hdet : detect_challenge env.detectEnv phase with
  | none =>
    refine ⟨{ found := false, st := st.decay (1/5), pause := none }, ?_, ?_, ?_⟩
    · simp [handle_challenge, hdet]
    · simp [hdet]
    · intro _; rfl
  | some c =>
    simp only [handle_challenge, hdet]
    cases hs : solveStep env with
    | true =>
      rw [if_pos rfl]
      exact ⟨_, rfl, by simp, by simp⟩
    | false =>
      rw [if_neg (by simp)]
      cases hd : try_dismiss_captcha env.dismissEnv with
      | false =>
        rw [if_neg (by simp)]
        exact ⟨_, rfl, by simp, by simp⟩
      | true =>
        rw [if_pos rfl]
        cases hrd : detect_challenge env.redetectEnv none with
        | none =>
          rw [if_pos rfl]
          exact ⟨_, rfl, by simp, by simp⟩
        | some c2 =>
          rw [if_neg (by simp)]
          exact ⟨_, rfl, by simp, by simp⟩

-- ──────────────────────────────────────────────
-- C8
-- ──────────────────────────────────────────────

lemma bumpForChallenge_score (st : ThrottleState) (c : String) :
    (bumpForChallenge st c).suspicion_score = (st.bump (5/2)).suspicion_score := by
  simp only [bumpForChallenge]
  split_ifs <;> rfl

lemma bumpForChallenge_rate (st : ThrottleState) (c : String) :
    (bumpForChallenge st c).rate_limit_count = st.rate_limit_count := by
  simp only [bumpForChallenge]
  split_ifs <;> rfl

lemma bumpForChallenge_captcha (st : ThrottleState) (c : String) :
    (bumpForChallenge st c).captcha_count =
      st.captcha_count + (if strContains "captcha" (strLower c) then 1 else 0) := by
  simp only [bumpForChallenge]
  split_ifs <;> simp [ThrottleState.bump]

/-- C8: when a challenge is detected, the solve step fails and the dismiss
path does not clear the page, `handle_challenge` reaches the backoff branch;
with the post-bump suspicion score exactly 6.0 the critical 180–360 s pause
draw is selected, not the standard 60–180 s one — equivalently,
`is_critical` already holds at score exactly 6.0. -/
theorem C8_critical_backoff :
    (∀ (env : HEnv) (phase : Option String) (cap : Option Bool)
        (st : ThrottleState) (c : String) (r : HResult),
      detect_challenge env.detectEnv phase = some c →
      solveStep env = false →
      (try_dismiss_captcha env.dismissEnv = false ∨
        detect_challenge env.redetectEnv none ≠ none) →
      min (st.suspicion_score + 5/2) MAX_SCORE = 6 →
      handle_challenge env phase cap st = .ok r →
      r.pause = some env.critPause) ∧
    (ThrottleState.mk 6 0 0 0).is_critical = true := by
  constructor
  · intro env phase cap st c r hdet hs hdm hscore hrun
    have hcrit : (bumpForChallenge st c).is_critical = true := by
      have h2 : (bumpForChallenge st c).suspicion_score = 6 := by
        rw [bumpForChallenge_score]
        simpa [ThrottleState.bump] using hscore
      simp [ThrottleState.is_critical, CRITICAL_THRESHOLD, h2]
    simp only [handle_challenge, hdet] at hrun
    rw [hs] at hrun
    rw [if_neg (by simp)] at hrun
    cases htd : try_dismiss_captcha env.dismissEnv with
    | false =>
      rw [htd] at hrun
      rw [if_neg (by simp)] at hrun
      injection hrun with h
      subst h
      simp [hcrit]
    | true =>
      rcases hdm with h | h
      · rw [htd] at h
        cases h
      · rw [htd] at hrun
        rw [if_pos rfl] at hrun
        rw [if_neg h] at hrun
        injection hrun with h2
        subst h2
        simp [hcrit]
  · simp [ThrottleState.is_critical, CRITICAL_THRESHOLD]

/-- A dismiss environment in which every probe and the Escape fallback
raise. -/
def dismissEnvFail : DismissEnv :=
  { closeVisible := fun _ => .error "timeout"
    closeClick := fun _ => .error "timeout"
    escape := .error "keyboard dead" }

/-- The challenge descriptor produced by a bare "captcha" URL. -/
def backoffChallenge : String := "challenge_url:" ++ strLower "captcha"

/-- The throttle state whose bump by 2.5 lands exactly on the critical
threshold 6.0. -/
def stBackoff : ThrottleState :=
  { suspicion_score := 7/2, captcha_count := 0, rate_limit_count := 0,
    last_action_ts := 0 }

/-- A handler environment where detection finds a captcha URL, the solver
imports fail, every dismiss probe fails, and the re-check still sees the
challenge. -/
def henvBackoff : HEnv :=
  { diag := .error "diagnostic failed"
    detectEnv := denvUrlOnly "captcha"
    configDebugFlag := .error "config import failed"
    captureOps := .error "io error"
    solveImports := .error "import failed"
    solveEnv := aenvUnknownExhaust
    dismissEnv := dismissEnvFail
    redetectEnv := denvUrlOnly "captcha"
    critPause := 200
    stdPause := 100
    gotoRes := .error "navigation failed" }

/-- The result record `handle_challenge` produces in the backoff branch of
the concrete scenario above. -/
def backoffResult : HResult :=
  { found := true
    st := bumpForChallenge stBackoff backoffChallenge
    pause := some (if (bumpForChallenge stBackoff backoffChallenge).is_critical
      then henvBackoff.critPause else henvBackoff.stdPause) }

/-- Witness for C8: the concrete backoff scenario at score 3.5 + 2.5 = 6.0
selects the critical draw (200 s, drawn from 180–360). -/
theorem C8_critical_backoff_witness :
    detect_challenge henvBackoff.detectEnv none = some backoffChallenge ∧
    solveStep henvBackoff = false ∧
    (try_dismiss_captcha henvBackoff.dismissEnv = false ∨
      detect_challenge henvBackoff.redetectEnv none ≠ none) ∧
    min (stBackoff.suspicion_score + 5/2) MAX_SCORE = 6 ∧
    handle_challenge henvBackoff none none stBackoff = .ok backoffResult ∧
    backoffResult.pause = some henvBackoff.critPause := by
  have hscore : min (stBackoff.suspicion_score + 5/2) MAX_SCORE = 6 := by
    norm_num [stBackoff, MAX_SCORE]
  refine ⟨rfl, rfl, Or.inl rfl, hscore, rfl, ?_⟩
  exact C8_critical_backoff.1 henvBackoff none none stBackoff backoffChallenge
    backoffResult rfl rfl (Or.inl rfl) hscore rfl

-- ──────────────────────────────────────────────
-- C9
-- ──────────────────────────────────────────────

/-- Every operation the repository ever performs on the process-wide
throttle state: `bump` (stealth.py line 44, tiktok_bot.py line 290),
`decay` (stealth.py lines 699/740/755, tiktok_bot.py lines 1038/1558/1652),
`record_action` (stealth.py line 69), and a full `handle_challenge` run
(the only code that touches `captcha_count`).  Reads — `delay_multiplier`,
`is_critical`, logging — do not mutate the state. -/
inductive CoreOp where
  | bump (amount : ℚ) (reason : String)
  | decay (amount : ℚ)
  | record (now : ℚ)
  | handle (env : HEnv) (phase : Option String) (cap : Option Bool)

/-- Apply one core operation to the throttle state.  For `handle` the state
carried by the (always-`.ok`) result is taken; the `.error` fallback keeps
the state and is unreachable. -/
def applyCoreOp (st : ThrottleState) : CoreOp → ThrottleState
  | .bump a _ => st.bump a
  | .decay a => st.decay a
  | .record t => st.record_action t
  | .handle env phase cap =>
    match handle_challenge env phase cap st with
    | .ok r => r.st
    | .error _ => st

/-- Run a sequence of core operations, first element first. -/
def runCoreOps (st : ThrottleState) : List CoreOp → ThrottleState
  | [] => st
  | op :: rest => runCoreOps (applyCoreOp st op) rest

/-- Number of captcha-counter increments an operation performs: 1 for a
`handle_challenge` run whose detected signal descriptor contains "captcha",
0 otherwise. -/
def capIncr : CoreOp → Nat
  | .handle env phase _ =>
    match detect_challenge env.detectEnv phase with
    | some c => if strContains "captcha" (strLower c) then 1 else 0
    | none => 0
  | _ => 0

lemma applyCoreOp_counters (st : ThrottleState) (op : CoreOp) :
    (applyCoreOp st op).rate_limit_count = st.rate_limit_count ∧
    (applyCoreOp st op).captcha_count = st.captcha_count + capIncr op := by
  cases op with
  | bump a r => simp [applyCoreOp, ThrottleState.bump, capIncr]
  | decay a => simp [applyCoreOp, ThrottleState.decay, capIncr]
  | record t => simp [applyCoreOp, ThrottleState.record_action, capIncr]
  | handle env phase cap =>
    simp only [applyCoreOp, capIncr]
    cases hdet : detect_challenge env.detectEnv phase with
    | none => simp [handle_challenge, hdet, ThrottleState.decay]
    | some c =>
      simp only [handle_challenge, hdet]
      cases hs : solveStep env with
      | true =>
        rw [if_pos rfl]
        simp [ThrottleState.decay, bumpForChallenge_rate, bumpForChallenge_captcha]
      | false =>
        rw [if_neg (by simp)]
        cases htd : try_dismiss_captcha env.dismissEnv with
        | false =>
          rw [if_neg (by simp)]
          simp [bumpForChallenge_rate, bumpForChallenge_captcha]
        | true =>
          rw [if_pos rfl]
          cases hrd : detect_challenge env.redetectEnv none with
          | none =>
            rw [if_pos rfl]
            simp [ThrottleState.decay, bumpForChallenge_rate,
              bumpForChallenge_captcha]
          | some c2 =>
            rw [if_neg (by simp)]
            simp [bumpForChallenge_rate, bumpForChallenge_captcha]

lemma runCoreOps_counters (ops : List CoreOp) (st : ThrottleState) :
    (runCoreOps st ops).rate_limit_count = st.rate_limit_count ∧
    (runCoreOps st ops).captcha_count =
      st.captcha_count + (ops.map capIncr).sum := by
  induction ops generalizing st with
  | nil => simp [runCoreOps]
  | cons op rest ih =>
    have h := applyCoreOp_counters st op
    have h2 := ih (applyCoreOp st op)
    simp only [runCoreOps, List.map_cons, List.sum_cons]
    refine ⟨by rw [h2.1, h.1], ?_⟩
    rw [h2.2, h.2]
    omega

/-- C9: no core operation ever writes `rate_limit_count` — it survives any
operation sequence unchanged, and from the default initial state it stays 0
for the whole run; `captcha_count` grows by exactly one per
`handle_challenge` run whose detected signal descriptor contains "captcha"
and is touched by nothing else. -/
theorem C9_counter_frame :
    (∀ (ops : List CoreOp) (st : ThrottleState),
      (runCoreOps st ops).rate_limit_count = st.rate_limit_count ∧
      (runCoreOps st ops).captcha_count =
        st.captcha_count + (ops.map capIncr).sum) ∧
    (∀ (ops : List CoreOp) (ts : ℚ),
      (runCoreOps (initThrottle ts) ops).rate_limit_count = 0) := by
  refine ⟨fun ops st => runCoreOps_counters ops st, fun ops ts => ?_⟩
  rw [(runCoreOps_counters ops (initThrottle ts)).1]
  rfl
